import Mathlib

/-!
Verification of the conversion orchestration core of the pptviewer
extension (src/libreoffice-converter.ts, src/ppt-editor-provider.ts,
src/extension.ts), as a shallow embedding in Lean.

The TypeScript code is asynchronous and effectful; we embed it by making
every environmental observation explicit:

* the filesystem is a record of the existence checks and modification
  times the code performs;
* a spawned child process is described by a `ProcBehavior` (it fails to
  spawn, exits at some time with an exit code and accumulated stderr, or
  hangs forever);
* the Node event loop around one spawned process is a list of timed
  events (the error or close event of the process, and the firing of the
  un-cleared timeout timer), folded over a once-only promise state that
  mirrors the first-settle-wins semantics of a JS Promise.

Every definition follows the corresponding source function; results that
the source delivers by rejecting a Promise with a distinguishable message
string are modelled by an error sum type, with `messageOf` recording the
exact message text of each rejection in the source.
-/

/-! ### Path model (Node path module, posix flavour, as used by the code)

String operations are modelled structurally over the character list so
that every definition evaluates inside the kernel. -/

/-- Split a character list at every occurrence of sep (like splitting a
string on a one-character separator). -/
def splitChars (sep : Char) : List Char → List (List Char)
  | [] => [[]]
  | c :: cs =>
      let rest := splitChars sep cs
      if c = sep then [] :: rest
      else
        match rest with
        | [] => [[c]]
        | g :: gs => (c :: g) :: gs

/-- The characters of the last path segment, ignoring trailing
separators (Node path.basename(p)). -/
def baseChars (p : String) : List Char :=
  (((splitChars '/' p.toList).reverse).dropWhile (fun g => g = [])).headD []

/-- Last path segment, ignoring trailing separators: Node path.basename(p). -/
def baseNameOf (p : String) : String := String.mk (baseChars p)

/-- Node path.extname(p): the substring of the last segment from its last
dot to the end; empty when the segment has no dot or the only dot is its
first character. -/
def extnameOf (p : String) : String :=
  let b := baseChars p
  let afterRev := b.reverse.takeWhile (fun c => c ≠ '.')
  if afterRev.length = b.length then ""
  else if afterRev.length + 1 = b.length then ""
  else String.mk ('.' :: afterRev.reverse)

/-- Whether s ends with the given text (String.prototype.endsWith). -/
def strEndsWith (s text : String) : Bool := text.toList.isSuffixOf s.toList

/-- Whether s starts with the given text (String.prototype.startsWith). -/
def strStartsWith (s text : String) : Bool := text.toList.isPrefixOf s.toList

/-- Node path.basename(p, ext): the last segment with the suffix ext
removed, provided the segment ends with ext and is not ext itself. -/
def baseNameExt (p ext : String) : String :=
  let b := baseChars p
  let e := ext.toList
  if b ≠ e ∧ e.isSuffixOf b then String.mk (b.take (b.length - e.length))
  else String.mk b

/-- Node path.join for the two-argument, already-normalised uses in the
code (scratch directory and file names). -/
def joinPath (a b : String) : String := a ++ "/" ++ b

/-! ### Converter Locator (getLibreOfficePath) -/

/-- The host operating system as reported by os.platform(). The code
distinguishes darwin, win32 and everything else. -/
inductive Platform where
  | darwin
  | win32
  | other
deriving DecidableEq, Repr

/-- The ordered list of known Windows installation paths probed by
getLibreOfficePath. -/
def possiblePaths : List String :=
  ["C:\\Program Files\\LibreOffice\\program\\soffice.exe",
   "C:\\Program Files (x86)\\LibreOffice\\program\\soffice.exe"]

/-- The for-loop over possiblePaths: first path for which fs.existsSync
holds wins; otherwise fall back to the bare command name. -/
def firstExisting (ex : String → Bool) : List String → String
  | [] => "soffice.exe"
  | p :: rest => if ex p then p else firstExisting ex rest

/-- getLibreOfficePath: pure function of the platform and the filesystem
existence predicate ex (fs.existsSync). -/
def getLibreOfficePath (platform : Platform) (ex : String → Bool) : String :=
  match platform with
  | .darwin => "/Applications/LibreOffice.app/Contents/MacOS/soffice"
  | .win32 => firstExisting ex possiblePaths
  | .other => "libreoffice"

/-! ### Child-process model -/

/-- What one spawned child process does, as observed by its event
handlers: it fails to spawn (the error event fires at time t with a
message), it exits on its own at time t with an exit code and the stderr
text accumulated by then, or it hangs forever producing some stderr. -/
inductive ProcBehavior where
  | spawnError (msg : String) (t : Nat)
  | exits (code : Int) (stderr : String) (t : Nat)
  | hangs (stderr : String)
deriving DecidableEq, Repr

/-- One event delivered by the event loop for a spawned process:
the process error event, the process close event (exit code is none when
the process was terminated by a signal), or the firing of the timeout
timer registered at spawn time. -/
inductive Evt where
  | perr (msg : String)
  | pclose (code : Option Int) (stderr : String)
  | ptimeout
deriving DecidableEq, Repr

/-- The ordered list of events delivered for one spawned process under a
timeout of bound milliseconds. The timer is never cleared in the source,
so ptimeout always fires; a process that would exit at or after the bound
is killed by the timer first, and its close event then reports no exit
code (signal termination). A spawn error suppresses any close event. -/
def timeline (bound : Nat) : ProcBehavior → List Evt
  | .spawnError msg t =>
      if t < bound then [.perr msg, .ptimeout] else [.ptimeout, .perr msg]
  | .exits code stderr t =>
      if t < bound then [.pclose (some code) stderr, .ptimeout]
      else [.ptimeout, .pclose none stderr]
  | .hangs stderr => [.ptimeout, .pclose none stderr]

/-- The handlers a caller installs on the spawned process: the error
handler, the close handler (receiving the exit code and the stderr text
accumulated by the data handler), and the value the timeout callback
settles with after killing the process. -/
structure Handlers (α : Type) where
  onError : String → α
  onClose : Option Int → String → α
  onTimeout : α

/-- The state of the surrounding Promise and of the child process while
the events are delivered: the settled value if any (a JS Promise settles
at most once; later resolves and rejects are ignored), whether the child
is still running, and whether a kill signal was actually delivered to a
running child. -/
structure RunState (α : Type) where
  settled : Option α
  alive : Bool
  killed : Bool
deriving Repr

/-- Settle a once-only promise: the first value wins. -/
def settleOnce (old : Option α) (v : α) : Option α :=
  match old with
  | some x => some x
  | none => some v

/-- Deliver one event: the error and close handlers settle the promise
(if still pending) and mark the child not running; the timeout callback
calls kill (effective only on a running child) and then settles with the
timeout value (ignored if already settled). -/
def step (h : Handlers α) (s : RunState α) : Evt → RunState α
  | .perr msg => ⟨settleOnce s.settled (h.onError msg), false, s.killed⟩
  | .pclose code stderr => ⟨settleOnce s.settled (h.onClose code stderr), false, s.killed⟩
  | .ptimeout => ⟨settleOnce s.settled h.onTimeout, false, s.killed || s.alive⟩

/-- Whether the child process is running right after spawn: a spawn
error means no child ever ran. -/
def startsAlive : ProcBehavior → Bool
  | .spawnError _ _ => false
  | _ => true

/-- Run one spawned process to quiescence: fold the delivered events over
the initial promise state. -/
def runProc (bound : Nat) (h : Handlers α) (b : ProcBehavior) : RunState α :=
  (timeline bound b).foldl (step h) ⟨none, startsAlive b, false⟩

/-- The value the surrounding Promise settled with (the timeline always
contains ptimeout, so the promise always settles; the default is never
reached). -/
def runResult (bound : Nat) (h : Handlers α) (b : ProcBehavior) : α :=
  (runProc bound h b).settled.getD h.onTimeout

/-! ### Availability Prober (checkLibreOfficeInstallation) -/

/-- The handlers installed by checkLibreOfficeInstallation: resolve false
on the error event, resolve (code === 0) on close, and resolve false from
the 5-second timeout callback after killing the process. -/
def probeHandlers : Handlers Bool :=
  ⟨fun _ => false, fun code _ => code == some 0, false⟩

/-- checkLibreOfficeInstallation: spawn the converter with a version
flag and run it under a 5000 ms timeout. The Promise executor only ever
calls resolve, never reject, so the embedding is total into Bool. -/
def checkLibreOfficeInstallation (probeB : ProcBehavior) : Bool :=
  runResult 5000 probeHandlers probeB

/-- The full run state of one probe invocation (used to reason about the
child process being terminated). -/
def probeRun (probeB : ProcBehavior) : RunState Bool :=
  runProc 5000 probeHandlers probeB

/-! ### Conversion failure taxonomy -/

/-- The distinguishable rejection reasons of the pipeline. Each
constructor corresponds to one reject(new Error(...)) site in the source;
messageOf below records the exact message text. -/
inductive ConvError where
  | notInstalled
  | spawnFailure (msg : String)
  | nonZeroExit (code : Option Int) (stderr : String)
  | outputMissing
  | timeout
  | imgSpawnFailure (msg : String)
  | imgNonZeroExit (code : Option Int) (stderr : String)
  | noOutputFiles
  | readDirError (msg : String)
  | imgTimeout
deriving DecidableEq, Repr

/-- Exit codes print as the JS close handler receives them: a number, or
null for a signal-terminated process. -/
def codeText : Option Int → String
  | some c => toString c
  | none => "null"

/-- The message string of each rejection site in the source. -/
def messageOf : ConvError → String
  | .notInstalled =>
      "LibreOffice is not installed or not found in PATH. Please install LibreOffice to use this extension."
  | .spawnFailure msg => "Failed to start LibreOffice: " ++ msg
  | .nonZeroExit code stderr =>
      "LibreOffice conversion failed with code " ++ codeText code ++ ". Error: " ++ stderr
  | .outputMissing => "PDF file was not created. LibreOffice may have encountered an error."
  | .timeout => "Conversion timeout. The PowerPoint file may be too large or complex."
  | .imgSpawnFailure msg => "Failed to start LibreOffice for image conversion: " ++ msg
  | .imgNonZeroExit code stderr =>
      "LibreOffice image conversion failed with code " ++ codeText code ++ ". Error: " ++ stderr
  | .noOutputFiles => "No PNG files were created from PDF."
  | .readDirError msg => "Error reading converted images: " ++ msg
  | .imgTimeout => "Image conversion timeout."

/-! ### Conversion Pipeline environment -/

/-- Everything convertToPDF observes from its environment: the system
temp root (os.tmpdir()), the behavior of the probe child process and of
the conversion child process, whether the output pdf already exists
before conversion, the modification times fs.statSync reports for the
source and the cached output, and whether the output pdf exists when the
close handler checks after a zero exit. -/
structure ConvEnv where
  tmpRoot : String
  probeB : ProcBehavior
  convB : ProcBehavior
  pdfExistsBefore : Bool
  pptMtime : Nat
  pdfMtime : Nat
  pdfExistsAfter : Bool
deriving Repr

/-- The scratch directory: path.join(os.tmpdir(), the fixed namespace). -/
def tempDirOf (env : ConvEnv) : String := joinPath env.tmpRoot "muty-pptviewer"

/-- path.basename(pptPath, path.extname(pptPath)). -/
def fileNameOf (pptPath : String) : String := baseNameExt pptPath (extnameOf pptPath)

/-- The deterministic output path: scratch directory + basename + .pdf. -/
def pdfPathOf (env : ConvEnv) (pptPath : String) : String :=
  joinPath (tempDirOf env) (fileNameOf pptPath ++ ".pdf")

/-- The cache short-circuit test of convertToPDF: the output exists and
its mtime is strictly later than the source mtime. -/
def cacheFresh (env : ConvEnv) : Bool :=
  env.pdfExistsBefore && decide (env.pptMtime < env.pdfMtime)

/-- Observable spawn-related events of one pipeline invocation, in
order: a probe child was spawned, the probe completed with a result, a
conversion child was spawned with the given argument list. -/
inductive TraceEvt where
  | probeSpawned
  | probeCompleted (ok : Bool)
  | convSpawned (args : List String)
deriving DecidableEq, Repr

/-- The argument list of the pdf conversion spawn in convertToPDF. -/
def pdfArgs (env : ConvEnv) (pptPath : String) : List String :=
  ["--headless", "--convert-to", "pdf", "--outdir", tempDirOf env, pptPath]

/-- The handlers installed on the pdf conversion process: reject with a
spawn failure on error; on close, succeed with the output path when the
exit code is zero and the file now exists, reject OutputMissing when it
does not, reject NonZeroExit otherwise; the 30-second timeout callback
kills the process and rejects Timeout. -/
def pdfHandlers (env : ConvEnv) (pptPath : String) : Handlers (Except ConvError String) :=
  ⟨fun msg => .error (.spawnFailure msg),
   fun code stderr =>
     if code == some 0 then
       if env.pdfExistsAfter then .ok (pdfPathOf env pptPath) else .error .outputMissing
     else .error (.nonZeroExit code stderr),
   .error .timeout⟩

/-- The outcome of one pipeline invocation: the settled value, the trace
of spawn-related events, and whether any conversion child process is
still running after the invocation settled. -/
structure PipeOutcome (α : Type) where
  result : Except ConvError α
  trace : List TraceEvt
  childAlive : Bool
  childKilled : Bool
deriving Repr

/-- convertToPDF: gate on the availability probe (fail NotInstalled with
no conversion spawn), compute the deterministic output path, return it
immediately on a fresh cache hit, otherwise spawn the converter under the
30-second timeout discipline. -/
def convertToPDF (env : ConvEnv) (pptPath : String) : PipeOutcome String :=
  let isInstalled := checkLibreOfficeInstallation env.probeB
  let trace0 := [TraceEvt.probeSpawned, TraceEvt.probeCompleted isInstalled]
  if !isInstalled then
    ⟨.error .notInstalled, trace0, false, false⟩
  else if cacheFresh env then
    ⟨.ok (pdfPathOf env pptPath), trace0, false, false⟩
  else
    let run := runProc 30000 (pdfHandlers env pptPath) env.convB
    ⟨run.settled.getD (.error .timeout),
     trace0 ++ [TraceEvt.convSpawned (pdfArgs env pptPath)],
     run.alive, run.killed⟩

/-! ### Image conversion (convertToImages) -/

/-- The additional environment of convertToImages: the behavior of the
second (raster) conversion child, and what fs.readdirSync(tempDir)
returns on the close handler (a listing, or a thrown error message). -/
structure ImgEnv extends ConvEnv where
  imgB : ProcBehavior
  readdir : Except String (List String)
deriving Repr

/-- The argument list of the png conversion spawn in convertToImages. -/
def pngArgs (env : ConvEnv) (pdfPath : String) : List String :=
  ["--headless", "--convert-to", "png", "--outdir", tempDirOf env, pdfPath]

/-- The enumeration in the close handler: files of the scratch directory
whose name starts with the source basename and ends with .png, each
joined onto the scratch directory. -/
def pngCandidates (env : ImgEnv) (pptPath : String) : List String :=
  ((env.readdir.toOption.getD []).filter
      (fun f => strStartsWith f (fileNameOf pptPath) && strEndsWith f ".png")).map
    (joinPath (tempDirOf env.toConvEnv))

/-- The handlers installed on the png conversion process: on a zero exit,
enumerate the scratch directory (a thrown readdir error rejects), reject
NoOutputFiles when nothing matches, and otherwise resolve the matches
sorted ascending by the default string order of Array.prototype.sort. -/
def imgHandlers (env : ImgEnv) (pptPath : String) : Handlers (Except ConvError (List String)) :=
  ⟨fun msg => .error (.imgSpawnFailure msg),
   fun code stderr =>
     if code == some 0 then
       match env.readdir with
       | .error msg => .error (.readDirError msg)
       | .ok _ =>
           let imageFiles := pngCandidates env pptPath
           if imageFiles.length > 0 then
             .ok (imageFiles.mergeSort (fun a b => a ≤ b))
           else .error .noOutputFiles
     else .error (.imgNonZeroExit code stderr),
   .error .imgTimeout⟩

/-- convertToImages: first obtain a PDF via convertToPDF (propagating any
failure), then spawn the converter against that PDF under the same
30-second timeout discipline and collect the raster outputs. -/
def convertToImages (env : ImgEnv) (pptPath : String) : PipeOutcome (List String) :=
  let pdf := convertToPDF env.toConvEnv pptPath
  match pdf.result with
  | .error e => ⟨.error e, pdf.trace, pdf.childAlive, pdf.childKilled⟩
  | .ok pdfPath =>
      let run := runProc 30000 (imgHandlers env pptPath) env.imgB
      ⟨run.settled.getD (.error .imgTimeout),
       pdf.trace ++ [TraceEvt.convSpawned (pngArgs env.toConvEnv pdfPath)],
       pdf.childAlive || run.alive, pdf.childKilled || run.killed⟩

/-! ### Lifecycle Notifier (PPTEditorProvider) -/

/-- Inbound messages from the display surface handled by
resolveCustomEditor. -/
inductive WebMsg where
  | ready
  | retryLibreOfficeCheck
  | errorIn (text : String)
deriving DecidableEq, Repr

/-- Outbound effects of the provider: messages posted to the webview and
error popups shown via the editor window. -/
inductive OutMsg where
  | libreOfficeNotInstalled
  | loadPDF (pdfPath : String)
  | errorOut (text : String)
deriving DecidableEq, Repr

/-- The additional environment of the provider: whether the produced pdf
still exists when loadPDF checks it. -/
structure ProviderEnv extends ConvEnv where
  pdfExistsAtLoad : Bool
deriving Repr

/-- The observable outcome of one pass through the provider: webview
posts, error popups, and the spawn trace of the pipeline calls made. -/
structure LoadOutcome where
  posts : List OutMsg
  popups : List String
  trace : List TraceEvt
deriving DecidableEq, Repr

/-- How a pipeline rejection prints inside the template literal of the
catch block (an Error stringifies with an Error: marker). -/
def caughtText (e : ConvError) : String :=
  "Failed to convert PowerPoint file: Error: " ++ messageOf e

/-- loadPDF of the provider: post an error message when the pdf is
missing, otherwise post the pdf location for the renderer. -/
def loadPDFStep (env : ProviderEnv) (pdfPath : String) : List OutMsg :=
  if !env.pdfExistsAtLoad then [.errorOut "PDF file was not created successfully."]
  else [.loadPDF pdfPath]

/-- loadPPT of the provider: probe availability first (this spawns a
fresh probe child); when unavailable, post the remediation signal; when
available, run convertToPDF (which probes again as part of its own gate)
and either hand the pdf to the renderer or surface the caught failure as
a popup and an error post. -/
def loadPPT (env : ProviderEnv) (pptPath : String) : LoadOutcome :=
  let isInstalled := checkLibreOfficeInstallation env.probeB
  let trace0 := [TraceEvt.probeSpawned, TraceEvt.probeCompleted isInstalled]
  if !isInstalled then
    ⟨[.libreOfficeNotInstalled], [], trace0⟩
  else
    let conv := convertToPDF env.toConvEnv pptPath
    match conv.result with
    | .ok pdfPath => ⟨loadPDFStep env pdfPath, [], trace0 ++ conv.trace⟩
    | .error e => ⟨[.errorOut (caughtText e)], [caughtText e], trace0 ++ conv.trace⟩

/-- The message handler of resolveCustomEditor: both the initial ready
signal and the user-initiated retry signal run loadPPT afresh (the ready
case additionally schedules a UI focus action, outside this model); an
error message from the webview becomes a popup. -/
def handleMessage (env : ProviderEnv) (pptPath : String) : WebMsg → LoadOutcome
  | .ready => loadPPT env pptPath
  | .retryLibreOfficeCheck => loadPPT env pptPath
  | .errorIn text => ⟨[], ["PPT Preview Error: " ++ text], []⟩

/-! ### Extension command (openPPT) -/

/-- The observable actions of the openPPT command: an error popup, or
opening the given uri with a custom editor view type. -/
inductive CmdAction where
  | showError (msg : String)
  | openWith (uri : String) (viewType : String)
deriving DecidableEq, Repr

/-- The toLowerCase call of the command handler, modelled character by
character (the relevant extensions are ASCII). -/
def lowerStr (s : String) : String := String.mk (s.toList.map Char.toLower)

/-- The openPPT command handler: reject a missing uri, reject a uri whose
lowercased extension is neither .pptx nor .ppt, and otherwise open the
uri with the preview editor. The uri is modelled by its fsPath. -/
def openPPTCommand (uri : Option String) : List CmdAction :=
  match uri with
  | none => [.showError "Please select a PowerPoint file to preview."]
  | some u =>
      let ext := lowerStr (extnameOf u)
      if ext != ".pptx" && ext != ".ppt" then
        [.showError "Please select a valid PowerPoint file (.pptx or .ppt)."]
      else
        [.openWith u "muty-pptviewer.preview"]

/-! ### Concrete environments used to instantiate the theorems -/

/-- Existence predicate under which only the second known Windows
installation path exists. -/
def exW : String → Bool :=
  fun s => s == "C:\\Program Files (x86)\\LibreOffice\\program\\soffice.exe"

/-- A working probe, a fresh cached pdf (source mtime 1, pdf mtime 2). -/
def envCacheHit : ConvEnv :=
  ⟨"/tmp", .exits 0 "" 10, .hangs "", true, 1, 2, false⟩

/-- A probe whose spawn fails at once (converter not installed). -/
def envNoInstall : ConvEnv :=
  ⟨"/tmp", .spawnError "spawn libreoffice ENOENT" 0, .hangs "", false, 5, 1, false⟩

/-- A working probe, a stale cache, and a conversion that exits cleanly
and produces the output file. -/
def envConvOk : ConvEnv :=
  ⟨"/tmp", .exits 0 "" 10, .exits 0 "" 200, false, 5, 1, true⟩

/-- A working probe, no cache, a conversion exiting with code 1. -/
def envConvFail : ConvEnv :=
  ⟨"/tmp", .exits 0 "" 10, .exits 1 "unsupported format" 200, false, 5, 1, false⟩

/-- A working probe, no cache, a conversion that hangs. -/
def envConvHang : ConvEnv :=
  ⟨"/tmp", .exits 0 "" 10, .hangs "still working", false, 5, 1, false⟩

/-- A working probe, no cache, a clean exit that produced no output. -/
def envConvNoOut : ConvEnv :=
  ⟨"/tmp", .exits 0 "" 10, .exits 0 "" 200, false, 5, 1, false⟩

/-- An image run over a fresh cache hit: the raster pass exits cleanly
and the scratch directory holds two matching page files, one matching
file of another deck, and an unrelated file. -/
def envImg : ImgEnv :=
  ⟨envCacheHit, .exits 0 "" 300,
   .ok ["deck2.png", "other.txt", "deck1.png", "memo.pdf"]⟩

/-- An image run whose raster pass exits cleanly but produced nothing. -/
def envImgEmpty : ImgEnv :=
  ⟨envCacheHit, .exits 0 "" 300, .ok ["memo.pdf"]⟩

/-! ### Helper lemmas about one spawned process -/

theorem runProc_exits_lt (bound : Nat) (h : Handlers α) (c : Int) (s : String) (t : Nat)
    (ht : t < bound) :
    runProc bound h (.exits c s t) = ⟨some (h.onClose (some c) s), false, false⟩ := by
  simp [runProc, timeline, ht, step, settleOnce, startsAlive]

theorem runProc_exits_ge (bound : Nat) (h : Handlers α) (c : Int) (s : String) (t : Nat)
    (ht : bound ≤ t) :
    runProc bound h (.exits c s t) = ⟨some h.onTimeout, false, true⟩ := by
  simp [runProc, timeline, Nat.not_lt.mpr ht, step, settleOnce, startsAlive]

theorem runProc_hangs (bound : Nat) (h : Handlers α) (s : String) :
    runProc bound h (.hangs s) = ⟨some h.onTimeout, false, true⟩ := by
  simp [runProc, timeline, step, settleOnce, startsAlive]

theorem runProc_spawnError_lt (bound : Nat) (h : Handlers α) (msg : String) (t : Nat)
    (ht : t < bound) :
    runProc bound h (.spawnError msg t) = ⟨some (h.onError msg), false, false⟩ := by
  simp [runProc, timeline, ht, step, settleOnce, startsAlive]

theorem runProc_spawnError_ge (bound : Nat) (h : Handlers α) (msg : String) (t : Nat)
    (ht : bound ≤ t) :
    runProc bound h (.spawnError msg t) = ⟨some h.onTimeout, false, false⟩ := by
  simp [runProc, timeline, Nat.not_lt.mpr ht, step, settleOnce, startsAlive]

/-- No child process is still running once the events have been
delivered: either it closed, or the un-cleared timer killed it. -/
theorem runProc_alive_false (bound : Nat) (h : Handlers α) (b : ProcBehavior) :
    (runProc bound h b).alive = false := by
  cases b with
  | spawnError msg t =>
      rcases Nat.lt_or_ge t bound with ht | ht
      · rw [runProc_spawnError_lt bound h msg t ht]
      · rw [runProc_spawnError_ge bound h msg t ht]
  | exits c s t =>
      rcases Nat.lt_or_ge t bound with ht | ht
      · rw [runProc_exits_lt bound h c s t ht]
      · rw [runProc_exits_ge bound h c s t ht]
  | hangs s => rw [runProc_hangs]

/-- A settled promise ignores every later event. -/
theorem step_settled (h : Handlers α) (r : α) (a k : Bool) (e : Evt) :
    (step h ⟨some r, a, k⟩ e).settled = some r := by
  cases e <;> simp [step, settleOnce]

/-- The probing loop is the first-match-wins search over the path list,
with the bare command name as fallback. -/
theorem firstExisting_eq_find (ex : String → Bool) (l : List String) :
    firstExisting ex l = (l.find? ex).getD "soffice.exe" := by
  induction l with
  | nil => simp [firstExisting]
  | cons p rest ih =>
      by_cases hp : ex p = true
      · simp [firstExisting, hp, List.find?_cons_of_pos]
      · rw [Bool.not_eq_true] at hp
        simp [firstExisting, hp, List.find?_cons_of_neg, ih]

/-- C9: the converter locator is a pure function of the host operating
system and filesystem existence checks and always returns a value (no
error path): on Darwin the fixed bundle-relative executable path; on
Windows the first existing path of the ordered known-installation list,
with the bare command name as fallback when none exists; on other
Unix-like systems the bare command name. -/
theorem getLibreOfficePath_contract (platform : Platform) (ex : String → Bool) :
    (platform = .darwin →
      getLibreOfficePath platform ex
        = "/Applications/LibreOffice.app/Contents/MacOS/soffice")
    ∧ (platform = .other → getLibreOfficePath platform ex = "libreoffice")
    ∧ (platform = .win32 →
      getLibreOfficePath platform ex = (possiblePaths.find? ex).getD "soffice.exe")
    ∧ getLibreOfficePath platform ex ∈
        "/Applications/LibreOffice.app/Contents/MacOS/soffice" ::
          "libreoffice" :: "soffice.exe" :: possiblePaths := by
  refine ⟨?_, ?_, ?_, ?_⟩
  · rintro rfl; rfl
  · rintro rfl; rfl
  · rintro rfl
    exact firstExisting_eq_find ex possiblePaths
  · cases platform with
    | darwin => simp [getLibreOfficePath]
    | other => simp [getLibreOfficePath]
    | win32 =>
        show firstExisting ex possiblePaths ∈ _
        rw [firstExisting_eq_find]
        cases hf : possiblePaths.find? ex with
        | none => simp
        | some q =>
            have hq := List.mem_of_find?_eq_some hf
            simp [hq]

theorem getLibreOfficePath_contract_witness :
    getLibreOfficePath .win32 exW
      = "C:\\Program Files (x86)\\LibreOffice\\program\\soffice.exe"
    ∧ getLibreOfficePath .darwin exW
      = "/Applications/LibreOffice.app/Contents/MacOS/soffice" := by
  constructor
  · rw [(getLibreOfficePath_contract .win32 exW).2.2.1 rfl]
    rfl
  · exact (getLibreOfficePath_contract .darwin exW).1 rfl

/-- C10: the openPPT command rejects a missing uri and any uri whose
lowercased extension is neither .pptx nor .ppt with an error popup and
never opens the custom editor for them; a uri with one of those
extensions is opened with the preview editor, and every open action
arises that way. -/
theorem openPPTCommand_extension_filter (uri : Option String) :
    (uri = none →
      openPPTCommand uri = [.showError "Please select a PowerPoint file to preview."])
    ∧ (∀ u, uri = some u → lowerStr (extnameOf u) ≠ ".pptx" →
        lowerStr (extnameOf u) ≠ ".ppt" →
        openPPTCommand uri
          = [.showError "Please select a valid PowerPoint file (.pptx or .ppt)."])
    ∧ (∀ u, uri = some u →
        (lowerStr (extnameOf u) = ".pptx" ∨ lowerStr (extnameOf u) = ".ppt") →
        openPPTCommand uri = [.openWith u "muty-pptviewer.preview"])
    ∧ (∀ u vt, CmdAction.openWith u vt ∈ openPPTCommand uri →
        uri = some u ∧ vt = "muty-pptviewer.preview" ∧
          (lowerStr (extnameOf u) = ".pptx" ∨ lowerStr (extnameOf u) = ".ppt")) := by
  refine ⟨?_, ?_, ?_, ?_⟩
  · rintro rfl; rfl
  · rintro u rfl h1 h2
    simp [openPPTCommand, h1, h2]
  · rintro u rfl h
    rcases h with h | h <;> simp [openPPTCommand, h]
  · intro u vt hm
    cases uri with
    | none => simp [openPPTCommand] at hm
    | some v =>
        by_cases h1 : lowerStr (extnameOf v) = ".pptx"
        · simp [openPPTCommand, h1] at hm
          exact ⟨by rw [hm.1], hm.2, Or.inl (hm.1 ▸ h1)⟩
        · by_cases h2 : lowerStr (extnameOf v) = ".ppt"
          · simp [openPPTCommand, h1, h2] at hm
            exact ⟨by rw [hm.1], hm.2, Or.inr (hm.1 ▸ h2)⟩
          · simp [openPPTCommand, h1, h2] at hm

theorem openPPTCommand_extension_filter_witness :
    openPPTCommand none = [.showError "Please select a PowerPoint file to preview."]
    ∧ openPPTCommand (some "/home/u/notes.txt")
        = [.showError "Please select a valid PowerPoint file (.pptx or .ppt)."]
    ∧ openPPTCommand (some "/home/u/deck.PpTx")
        = [.openWith "/home/u/deck.PpTx" "muty-pptviewer.preview"] :=
  ⟨(openPPTCommand_extension_filter none).1 rfl,
   (openPPTCommand_extension_filter (some "/home/u/notes.txt")).2.1
     "/home/u/notes.txt" rfl (by decide) (by decide),
   (openPPTCommand_extension_filter (some "/home/u/deck.PpTx")).2.2.1
     "/home/u/deck.PpTx" rfl (Or.inl (by decide))⟩

/-! ### Compute lemmas for the availability probe -/

theorem check_spawnError (msg : String) (t : Nat) :
    checkLibreOfficeInstallation (.spawnError msg t) = false := by
  rcases Nat.lt_or_ge t 5000 with ht | ht
  · simp only [checkLibreOfficeInstallation, runResult,
      runProc_spawnError_lt 5000 probeHandlers msg t ht]
    rfl
  · simp only [checkLibreOfficeInstallation, runResult,
      runProc_spawnError_ge 5000 probeHandlers msg t ht]
    rfl

theorem check_exits_lt (c : Int) (s : String) (t : Nat) (ht : t < 5000) :
    checkLibreOfficeInstallation (.exits c s t) = (c == 0) := by
  simp only [checkLibreOfficeInstallation, runResult,
    runProc_exits_lt 5000 probeHandlers c s t ht]
  rfl

theorem check_exits_ge (c : Int) (s : String) (t : Nat) (ht : 5000 ≤ t) :
    checkLibreOfficeInstallation (.exits c s t) = false := by
  simp only [checkLibreOfficeInstallation, runResult,
    runProc_exits_ge 5000 probeHandlers c s t ht]
  rfl

theorem check_hangs (s : String) :
    checkLibreOfficeInstallation (.hangs s) = false := by
  simp only [checkLibreOfficeInstallation, runResult,
    runProc_hangs 5000 probeHandlers s]
  rfl

/-- C6: the availability probe never throws (its embedding is total into
Bool, mirroring a resolve-only Promise executor); it resolves true
exactly when the probe process exits on its own with code zero within
the 5-second bound, hence false on spawn error, non-zero exit, or
timeout; in the hung and late-exit cases the spawned process receives
the kill signal, and no probe child is left running. -/
theorem checkInstalled_contract :
    (∀ b, checkLibreOfficeInstallation b = true ↔
        ∃ s t, b = ProcBehavior.exits 0 s t ∧ t < 5000)
    ∧ (∀ s, (probeRun (.hangs s)).killed = true)
    ∧ (∀ c s t, 5000 ≤ t → (probeRun (.exits c s t)).killed = true)
    ∧ (∀ b, (probeRun b).alive = false) := by
  refine ⟨?_, ?_, ?_, ?_⟩
  · intro b
    constructor
    · intro hb
      cases b with
      | spawnError msg t => rw [check_spawnError] at hb; cases hb
      | exits c s t =>
          rcases Nat.lt_or_ge t 5000 with ht | ht
          · rw [check_exits_lt c s t ht] at hb
            have hc : c = 0 := by simpa using hb
            exact ⟨s, t, by rw [hc], ht⟩
          · rw [check_exits_ge c s t ht] at hb; cases hb
      | hangs s => rw [check_hangs] at hb; cases hb
    · rintro ⟨s, t, rfl, ht⟩
      rw [check_exits_lt 0 s t ht]
      rfl
  · intro s
    rw [probeRun, runProc_hangs]
  · intro c s t ht
    rw [probeRun, runProc_exits_ge 5000 probeHandlers c s t ht]
  · intro b
    rw [probeRun]
    exact runProc_alive_false 5000 probeHandlers b

theorem checkInstalled_contract_witness :
    checkLibreOfficeInstallation (.exits 0 "" 120) = true
    ∧ (probeRun (.hangs "")).killed = true
    ∧ (probeRun (.exits 0 "" 6000)).killed = true :=
  ⟨(checkInstalled_contract.1 _).mpr ⟨"", 120, rfl, by decide⟩,
   checkInstalled_contract.2.1 "",
   checkInstalled_contract.2.2.1 0 "" 6000 (by decide)⟩

/-! ### Compute lemmas for convertToPDF -/

theorem convertToPDF_run (env : ConvEnv) (pptPath : String)
    (hp : checkLibreOfficeInstallation env.probeB = true)
    (hc : cacheFresh env = false) :
    convertToPDF env pptPath =
      ⟨(runProc 30000 (pdfHandlers env pptPath) env.convB).settled.getD (.error .timeout),
       [.probeSpawned, .probeCompleted true, .convSpawned (pdfArgs env pptPath)],
       (runProc 30000 (pdfHandlers env pptPath) env.convB).alive,
       (runProc 30000 (pdfHandlers env pptPath) env.convB).killed⟩ := by
  simp [convertToPDF, hp, hc]

theorem convertToPDF_cacheHit (env : ConvEnv) (pptPath : String)
    (hp : checkLibreOfficeInstallation env.probeB = true)
    (hc : cacheFresh env = true) :
    convertToPDF env pptPath =
      ⟨.ok (pdfPathOf env pptPath), [.probeSpawned, .probeCompleted true], false, false⟩ := by
  simp [convertToPDF, hp, hc]

theorem convertToPDF_noProbe (env : ConvEnv) (pptPath : String)
    (hp : checkLibreOfficeInstallation env.probeB = false) :
    convertToPDF env pptPath =
      ⟨.error .notInstalled, [.probeSpawned, .probeCompleted false], false, false⟩ := by
  simp [convertToPDF, hp]

/-- C1: when the output file already exists at the derived output path
and its modification timestamp is strictly later than that of the source
file, convertToPDF returns the cached path at once and spawns no
conversion process: its trace holds exactly the availability-probe
events demanded by the gate (claim C2) and no conversion spawn. -/
theorem convertToPDF_cache_short_circuit (env : ConvEnv) (pptPath : String)
    (hp : checkLibreOfficeInstallation env.probeB = true)
    (he : env.pdfExistsBefore = true)
    (hm : env.pptMtime < env.pdfMtime) :
    (convertToPDF env pptPath).result = .ok (pdfPathOf env pptPath)
    ∧ (convertToPDF env pptPath).trace = [.probeSpawned, .probeCompleted true]
    ∧ ∀ args, TraceEvt.convSpawned args ∉ (convertToPDF env pptPath).trace := by
  have hc : cacheFresh env = true := by simp [cacheFresh, he, hm]
  rw [convertToPDF_cacheHit env pptPath hp hc]
  refine ⟨rfl, rfl, ?_⟩
  intro args
  simp

theorem convertToPDF_cache_short_circuit_witness :
    (convertToPDF envCacheHit "/home/u/deck.pptx").result
        = .ok "/tmp/muty-pptviewer/deck.pdf"
    ∧ ∀ args, TraceEvt.convSpawned args ∉ (convertToPDF envCacheHit "/home/u/deck.pptx").trace := by
  have h := convertToPDF_cache_short_circuit envCacheHit "/home/u/deck.pptx"
    (by decide) rfl (by decide)
  exact ⟨by rw [h.1]; rfl, h.2.2⟩

/-- C2: when the availability probe reports the converter unavailable,
convertToPDF fails with NotInstalled and spawns no conversion process;
and in every run, any conversion spawn event in the trace is preceded by
a probe completion event. -/
theorem convertToPDF_notInstalled_gate (env : ConvEnv) (pptPath : String) :
    (checkLibreOfficeInstallation env.probeB = false →
      (convertToPDF env pptPath).result = .error .notInstalled
      ∧ ∀ args, TraceEvt.convSpawned args ∉ (convertToPDF env pptPath).trace)
    ∧ (∀ i args,
        (convertToPDF env pptPath).trace[i]? = some (TraceEvt.convSpawned args) →
        ∃ j : Nat, j < i ∧ ∃ ok,
          (convertToPDF env pptPath).trace[j]? = some (TraceEvt.probeCompleted ok)) := by
  constructor
  · intro hp
    rw [convertToPDF_noProbe env pptPath hp]
    exact ⟨rfl, by intro args; simp⟩
  · intro i args hi
    by_cases hp : checkLibreOfficeInstallation env.probeB = true
    · by_cases hc : cacheFresh env = true
      · rw [convertToPDF_cacheHit env pptPath hp hc] at hi ⊢
        rcases i with _ | _ | i
        · exact absurd hi (by simp)
        · exact absurd hi (by simp)
        · exact absurd hi (by simp)
      · rw [Bool.not_eq_true] at hc
        rw [convertToPDF_run env pptPath hp hc] at hi ⊢
        rcases i with _ | _ | _ | i
        · exact absurd hi (by simp)
        · exact absurd hi (by simp)
        · exact ⟨1, by omega, true, rfl⟩
        · exact absurd hi (by simp)
    · rw [Bool.not_eq_true] at hp
      rw [convertToPDF_noProbe env pptPath hp] at hi ⊢
      rcases i with _ | _ | i
      · exact absurd hi (by simp)
      · exact absurd hi (by simp)
      · exact absurd hi (by simp)

theorem convertToPDF_notInstalled_gate_witness :
    (convertToPDF envNoInstall "/home/u/deck.pptx").result = .error .notInstalled
    ∧ (∃ j : Nat, j < 2 ∧ ∃ ok,
        (convertToPDF envConvOk "/home/u/deck.pptx").trace[j]?
          = some (TraceEvt.probeCompleted ok)) :=
  ⟨((convertToPDF_notInstalled_gate envNoInstall "/home/u/deck.pptx").1 (by decide)).1,
   (convertToPDF_notInstalled_gate envConvOk "/home/u/deck.pptx").2 2
     (pdfArgs envConvOk "/home/u/deck.pptx") (by decide)⟩

/-- C3: a 30-second bound governs the spawn-to-exit window of a spawned
conversion: when the process exits on its own before the bound, the
normal close handler determines the outcome and no kill signal is ever
delivered; when it would exit only at or after the bound, or hangs, the
timeout wins, the child receives the kill signal, and the call fails
with Timeout; and once the promise is settled, every later event (the
loser of the race) leaves the settled outcome unchanged. -/
theorem convertToPDF_timeout_race (env : ConvEnv) (pptPath : String)
    (hp : checkLibreOfficeInstallation env.probeB = true)
    (hc : cacheFresh env = false) :
    (∀ c s t, env.convB = .exits c s t → t < 30000 →
      (convertToPDF env pptPath).result = (pdfHandlers env pptPath).onClose (some c) s
      ∧ (convertToPDF env pptPath).childKilled = false)
    ∧ (∀ c s t, env.convB = .exits c s t → 30000 ≤ t →
      (convertToPDF env pptPath).result = .error .timeout
      ∧ (convertToPDF env pptPath).childKilled = true)
    ∧ (∀ s, env.convB = .hangs s →
      (convertToPDF env pptPath).result = .error .timeout
      ∧ (convertToPDF env pptPath).childKilled = true)
    ∧ (∀ (r : Except ConvError String) (a k : Bool) (e : Evt),
      (step (pdfHandlers env pptPath) ⟨some r, a, k⟩ e).settled = some r) := by
  refine ⟨?_, ?_, ?_, ?_⟩
  · intro c s t hb ht
    rw [convertToPDF_run env pptPath hp hc, hb,
      runProc_exits_lt 30000 (pdfHandlers env pptPath) c s t ht]
    exact ⟨rfl, rfl⟩
  · intro c s t hb ht
    rw [convertToPDF_run env pptPath hp hc, hb,
      runProc_exits_ge 30000 (pdfHandlers env pptPath) c s t ht]
    exact ⟨rfl, rfl⟩
  · intro s hb
    rw [convertToPDF_run env pptPath hp hc, hb,
      runProc_hangs 30000 (pdfHandlers env pptPath) s]
    exact ⟨rfl, rfl⟩
  · intro r a k e
    exact step_settled (pdfHandlers env pptPath) r a k e

theorem convertToPDF_timeout_race_witness :
    ((convertToPDF envConvFail "/home/u/deck.pptx").result
        = (pdfHandlers envConvFail "/home/u/deck.pptx").onClose (some 1) "unsupported format"
      ∧ (convertToPDF envConvFail "/home/u/deck.pptx").childKilled = false)
    ∧ ((convertToPDF envConvHang "/home/u/deck.pptx").result = .error .timeout
      ∧ (convertToPDF envConvHang "/home/u/deck.pptx").childKilled = true) :=
  ⟨(convertToPDF_timeout_race envConvFail "/home/u/deck.pptx" (by decide) (by decide)).1
      1 "unsupported format" 200 rfl (by decide),
   (convertToPDF_timeout_race envConvHang "/home/u/deck.pptx" (by decide) (by decide)).2.2.1
      "still working" rfl⟩

/-- C4: when the conversion process exits with code zero before the
bound but the expected output file does not exist, convertToPDF fails
with OutputMissing (not success); when it exits with a non-zero code, it
fails with NonZeroExit carrying that code and the accumulated stderr
text. -/
theorem convertToPDF_exit_outcomes (env : ConvEnv) (pptPath : String)
    (hp : checkLibreOfficeInstallation env.probeB = true)
    (hc : cacheFresh env = false)
    (c : Int) (s : String) (t : Nat)
    (hb : env.convB = .exits c s t) (ht : t < 30000) :
    (c = 0 → env.pdfExistsAfter = false →
      (convertToPDF env pptPath).result = .error .outputMissing)
    ∧ (c ≠ 0 →
      (convertToPDF env pptPath).result = .error (.nonZeroExit (some c) s)) := by
  have hrw := runProc_exits_lt 30000 (pdfHandlers env pptPath) c s t ht
  constructor
  · rintro rfl hafter
    rw [convertToPDF_run env pptPath hp hc, hb, hrw]
    simp [pdfHandlers, hafter]
  · intro hcz
    rw [convertToPDF_run env pptPath hp hc, hb, hrw]
    simp [pdfHandlers, hcz]

theorem convertToPDF_exit_outcomes_witness :
    (convertToPDF envConvNoOut "/home/u/deck.pptx").result = .error .outputMissing
    ∧ (convertToPDF envConvFail "/home/u/deck.pptx").result
        = .error (.nonZeroExit (some 1) "unsupported format") :=
  ⟨(convertToPDF_exit_outcomes envConvNoOut "/home/u/deck.pptx" (by decide) (by decide)
      0 "" 200 rfl (by decide)).1 rfl rfl,
   (convertToPDF_exit_outcomes envConvFail "/home/u/deck.pptx" (by decide) (by decide)
      1 "unsupported format" 200 rfl (by decide)).2 (by decide)⟩

theorem convertToImages_run (env : ImgEnv) (pptPath pdfPath : String)
    (hpdf : (convertToPDF env.toConvEnv pptPath).result = .ok pdfPath) :
    convertToImages env pptPath =
      ⟨(runProc 30000 (imgHandlers env pptPath) env.imgB).settled.getD (.error .imgTimeout),
       (convertToPDF env.toConvEnv pptPath).trace
         ++ [TraceEvt.convSpawned (pngArgs env.toConvEnv pdfPath)],
       (convertToPDF env.toConvEnv pptPath).childAlive
         || (runProc 30000 (imgHandlers env pptPath) env.imgB).alive,
       (convertToPDF env.toConvEnv pptPath).childKilled
         || (runProc 30000 (imgHandlers env pptPath) env.imgB).killed⟩ := by
  simp [convertToImages, hpdf]

/-- C7: no child process outlives its conversion attempt, on any path
(failure paths included): after convertToPDF and convertToImages settle,
no spawned conversion child is still running — it either closed on its
own or was killed by the timer, which the source never clears and which
therefore delivers a kill to any child still alive at the bound. -/
theorem no_child_outlives_conversion (env : ImgEnv) (pptPath : String) :
    (convertToPDF env.toConvEnv pptPath).childAlive = false
    ∧ (convertToImages env pptPath).childAlive = false := by
  have h1 : ∀ (e : ConvEnv) (p : String), (convertToPDF e p).childAlive = false := by
    intro e p
    by_cases hp : checkLibreOfficeInstallation e.probeB = true
    · by_cases hc : cacheFresh e = true
      · rw [convertToPDF_cacheHit e p hp hc]
      · rw [Bool.not_eq_true] at hc
        rw [convertToPDF_run e p hp hc]
        exact runProc_alive_false 30000 (pdfHandlers e p) e.convB
    · rw [Bool.not_eq_true] at hp
      rw [convertToPDF_noProbe e p hp]
  refine ⟨h1 _ _, ?_⟩
  cases hres : (convertToPDF env.toConvEnv pptPath).result with
  | error e => simp [convertToImages, hres, h1]
  | ok pdfPath => simp [convertToImages, hres, h1, runProc_alive_false]

/-- C5: when the raster conversion exits cleanly (code zero before the
bound) after a successful pdf stage, the result is exactly the scratch
directory files whose names start with the source basename and end with
the raster extension, joined onto the scratch directory, in ascending
lexical filename order; when no file matches, the call fails with
NoOutputFiles. -/
theorem convertToImages_listing_sorted (env : ImgEnv) (pptPath pdfPath : String)
    (hpdf : (convertToPDF env.toConvEnv pptPath).result = .ok pdfPath)
    (s : String) (t : Nat) (hb : env.imgB = .exits 0 s t) (ht : t < 30000)
    (listing : List String) (hrd : env.readdir = .ok listing) :
    pngCandidates env pptPath
      = (listing.filter
          (fun f => strStartsWith f (fileNameOf pptPath) && strEndsWith f ".png")).map
        (joinPath (tempDirOf env.toConvEnv))
    ∧ (pngCandidates env pptPath = [] →
      (convertToImages env pptPath).result = .error .noOutputFiles)
    ∧ (pngCandidates env pptPath ≠ [] →
      ∃ r, (convertToImages env pptPath).result = .ok r
        ∧ r.Perm (pngCandidates env pptPath)
        ∧ r.Sorted (fun a b => a ≤ b)) := by
  have hres : (convertToImages env pptPath).result
      = (imgHandlers env pptPath).onClose (some 0) s := by
    cases hmatch : (convertToPDF env.toConvEnv pptPath).result with
    | error e => rw [hmatch] at hpdf; cases hpdf
    | ok q =>
        rw [convertToImages_run env pptPath q hmatch, hb,
          runProc_exits_lt 30000 (imgHandlers env pptPath) 0 s t ht]
        rfl
  refine ⟨by simp [pngCandidates, hrd, Except.toOption], ?_, ?_⟩
  · intro hempty
    rw [hres]
    simp [imgHandlers, hrd, hempty]
  · intro hne
    have hpos : 0 < (pngCandidates env pptPath).length := List.length_pos.mpr hne
    refine ⟨(pngCandidates env pptPath).mergeSort (fun a b => a ≤ b), ?_, ?_, ?_⟩
    · rw [hres]
      simp [imgHandlers, hrd, hpos]
    · exact List.mergeSort_perm (pngCandidates env pptPath) (fun a b => a ≤ b)
    · exact List.sorted_mergeSort' (pngCandidates env pptPath)

theorem convertToImages_listing_sorted_witness :
    (∃ r, (convertToImages envImg "/home/u/deck.pptx").result = .ok r
      ∧ r.Perm (pngCandidates envImg "/home/u/deck.pptx")
      ∧ r.Sorted (fun a b => a ≤ b))
    ∧ (convertToImages envImgEmpty "/home/u/deck.pptx").result = .error .noOutputFiles :=
  ⟨(convertToImages_listing_sorted envImg "/home/u/deck.pptx"
      "/tmp/muty-pptviewer/deck.pdf" rfl "" 300 rfl (by decide)
      ["deck2.png", "other.txt", "deck1.png", "memo.pdf"] rfl).2.2 (by decide),
   (convertToImages_listing_sorted envImgEmpty "/home/u/deck.pptx"
      "/tmp/muty-pptviewer/deck.pdf" rfl "" 300 rfl (by decide)
      ["memo.pdf"] rfl).2.1 (by decide)⟩

/-- C8: a user-initiated retry signal from the display surface repeats
the whole flow: handling it is precisely a fresh loadPPT run, identical
to the initial ready handling, and its spawn trace opens with a fresh
availability-probe invocation — nothing is answered from a cached
availability result, since the model of the handler has no state beyond
the current environment. -/
theorem retry_reprobes_availability (env : ProviderEnv) (pptPath : String) :
    handleMessage env pptPath .retryLibreOfficeCheck = loadPPT env pptPath
    ∧ handleMessage env pptPath .retryLibreOfficeCheck
        = handleMessage env pptPath .ready
    ∧ (handleMessage env pptPath .retryLibreOfficeCheck).trace.head?
        = some TraceEvt.probeSpawned
    ∧ TraceEvt.probeSpawned ∈ (handleMessage env pptPath .retryLibreOfficeCheck).trace := by
  have htr : ∃ rest, (loadPPT env pptPath).trace = TraceEvt.probeSpawned :: rest := by
    by_cases hp : checkLibreOfficeInstallation env.probeB = true
    · cases hres : (convertToPDF env.toConvEnv pptPath).result with
      | ok v =>
          exact ⟨TraceEvt.probeCompleted true
              :: (convertToPDF env.toConvEnv pptPath).trace,
            by simp [loadPPT, hp, hres]⟩
      | error e =>
          exact ⟨TraceEvt.probeCompleted true
              :: (convertToPDF env.toConvEnv pptPath).trace,
            by simp [loadPPT, hp, hres]⟩
    · rw [Bool.not_eq_true] at hp
      exact ⟨[TraceEvt.probeCompleted false], by simp [loadPPT, hp]⟩
  rcases htr with ⟨rest, htr⟩
  have hh : handleMessage env pptPath .retryLibreOfficeCheck = loadPPT env pptPath := rfl
  refine ⟨rfl, rfl, ?_, ?_⟩
  · rw [hh, htr]
    rfl
  · rw [hh, htr]
    exact List.mem_cons_self _ _
